import Mathlib

/-!
# RLS_Shiny — shallow embedding and verification

A shallow embedding of the computational core of `RLS_Shiny.py`: the data
loader/validator `cargar_y_validar_datos`, the regression engine
`calcular_estadisticos`, the plot builder `crear_grafico_interactivo`, and the
hypothetical-point composition of the `interpretacion`/`plot` server outputs.

Modelling conventions:
* cells of the parsed spreadsheet are numbers (exact rationals), text values,
  or nulls (pandas `NaN`/`None`);
* a column header is either a string or a non-string value (pandas can give
  numeric headers when the header row holds numbers);
* a floating-point computation that would produce `NaN`/`Inf` in Python
  (division by zero, square root of a value with zero in the denominator)
  is modelled as `Option.none`; every other arithmetic step is exact, over
  `ℚ` (and `ℝ` where the source takes square roots);
* pandas `Series.cov`/`Series.var` default to `ddof = 1` (sample
  normalization) and `Series.corr` is the Pearson correlation; the embedded
  formulas spell these out.
-/

namespace RLS

/-- A cell of the parsed spreadsheet: a numeric value, a text value, or a
null/missing value (pandas `NaN`). -/
inductive Cell where
  | num (q : ℚ)
  | txt (s : String)
  | null
  deriving DecidableEq, Repr

/-- A column header as pandas exposes it in `data.columns`: a string, or a
non-string value (e.g. a numeric header cell). -/
inductive HeaderCell where
  | str (s : String)
  | nonstr
  deriving DecidableEq, Repr

/-- A parsed table, column-major: each column is a header together with its
list of cells (`pd.read_excel` output). -/
structure Tabla where
  cols : List (HeaderCell × List Cell)
  deriving DecidableEq, Repr

/-- Whether a cell is numeric or null: such cells are the ones a pandas
numeric (`float64`/`int64`) dtype can hold. -/
def Cell.isNumOrNull : Cell → Bool
  | .num _ => true
  | .null => true
  | .txt _ => false

/-- Whether a cell is null (`pd.isnull`). -/
def Cell.isNull : Cell → Bool
  | .null => true
  | _ => false

/-- `pd.api.types.is_numeric_dtype` on a parsed Excel column: the column is
nonempty (an empty parsed column has `object` dtype) and every cell is a
number or a null (`NaN`), which is exactly when pandas infers a numeric
dtype. -/
def columnaNumerica (cells : List Cell) : Bool :=
  !cells.isEmpty && cells.all Cell.isNumOrNull

/-- `data.isnull().any().any()`: some cell of some column is null. -/
def tieneNulos (t : Tabla) : Bool :=
  t.cols.any fun c => c.2.any Cell.isNull

/-- Whether a header is a string (`isinstance(col, str)`). -/
def HeaderCell.esStr : HeaderCell → Bool
  | .str _ => true
  | .nonstr => false

/-- `cargar_y_validar_datos` (lines 7–22): the input is the result of the
`pd.read_excel` parse (`none` when parsing raised), and the checks run in
source order, each returning its own error message:
column count = 3, all headers strings, columns 1 and 2 numeric, no nulls. -/
def cargar_y_validar_datos (inp : Option Tabla) : Except String Tabla :=
  match inp with
  | none => .error "No se pudo cargar el archivo. Verifica que sea un archivo .xlsx válido."
  | some t =>
    match t.cols with
    | [c0, c1, c2] =>
      if !(c0.1.esStr && c1.1.esStr && c2.1.esStr) then
        .error "Cada columna debe tener un encabezado."
      else if !columnaNumerica c1.2 || !columnaNumerica c2.2 then
        .error "Las columnas de la variable independiente y dependiente deben ser numéricas."
      else if tieneNulos t then
        .error "Las columnas no deben contener valores nulos."
      else .ok t
    | _ => .error "El archivo debe contener exactamente tres columnas."

/-! ## Regression engine

`calcular_estadisticos` (lines 25–43) works on the two numeric columns
`X = data.iloc[:, 1]`, `Y = data.iloc[:, 2]` of a validated table; we embed
it over the list of aligned `(x, y)` rows. -/

/-- `Series.mean`: sum divided by length. -/
def mean (l : List ℚ) : ℚ := l.sum / l.length

/-- The X column of the row list. -/
def colX (rows : List (ℚ × ℚ)) : List ℚ := rows.map Prod.fst

/-- The Y column of the row list. -/
def colY (rows : List (ℚ × ℚ)) : List ℚ := rows.map Prod.snd

/-- Numerator of the sample covariance: `Σ (xᵢ − mean X)·(yᵢ − mean Y)`. -/
def sumCov (rows : List (ℚ × ℚ)) : ℚ :=
  (rows.map fun p => (p.1 - mean (colX rows)) * (p.2 - mean (colY rows))).sum

/-- Numerator of the sample variance: `Σ (xᵢ − mean l)²`. -/
def sumVar (l : List ℚ) : ℚ := (l.map fun x => (x - mean l) ^ 2).sum

/-- `X.cov(Y)` (pandas default `ddof = 1`): `Σ (xᵢ−x̄)(yᵢ−ȳ) / (n−1)`;
`none` models the `NaN` pandas returns when `n < 2`. -/
def covXY (rows : List (ℚ × ℚ)) : Option ℚ :=
  if rows.length < 2 then none
  else some (sumCov rows / ((rows.length : ℚ) - 1))

/-- `Series.var` (pandas default `ddof = 1`): `Σ (xᵢ−x̄)² / (n−1)`;
`none` models the `NaN` pandas returns when `n < 2`. -/
def varS (l : List ℚ) : Option ℚ :=
  if l.length < 2 then none
  else some (sumVar l / ((l.length : ℚ) - 1))

/-- `b = X.cov(Y) / X.var()` (line 30); `none` models the `NaN` produced
when the variance is zero (float `0.0/0.0`) or when `n < 2`. -/
def pendiente (rows : List (ℚ × ℚ)) : Option ℚ := do
  let c ← covXY rows
  let v ← varS (colX rows)
  if v = 0 then none else some (c / v)

/-- `a = Y.mean() - b * X.mean()` (line 31); `NaN` in `b` propagates. -/
def interseccion (rows : List (ℚ × ℚ)) : Option ℚ := do
  let b ← pendiente rows
  some (mean (colY rows) - b * mean (colX rows))

/-- `r = X.corr(Y)` (line 32), the Pearson correlation
`cov(X,Y) / (√var(X) · √var(Y))`; `none` models the `NaN` pandas returns
when `n < 2` or either variance is zero (zero denominator). -/
noncomputable def coef_correlacion (rows : List (ℚ × ℚ)) : Option ℝ := do
  let c ← covXY rows
  let vx ← varS (colX rows)
  let vy ← varS (colY rows)
  if vx = 0 ∨ vy = 0 then none
  else some ((c : ℝ) / (Real.sqrt (vx : ℝ) * Real.sqrt (vy : ℝ)))

/-- `r2 = r ** 2` (line 33); `NaN` in `r` propagates. -/
noncomputable def coef_determinacion (rows : List (ℚ × ℚ)) : Option ℝ :=
  (coef_correlacion rows).map (· ^ 2)

/-- Residual sum of squares `Σ (yᵢ − (a + b·xᵢ))²` (line 34). -/
def sumResid (rows : List (ℚ × ℚ)) (a b : ℚ) : ℚ :=
  (rows.map fun p => (p.2 - (a + b * p.1)) ^ 2).sum

/-- `error_estandar = (Σ(yᵢ − (a + b·xᵢ))² / (n − 2)) ** 0.5`
(lines 34–35); `none` models the `Inf`/`NaN` produced when `n = 2`
(division by zero) and the `NaN` propagated from `a`, `b`. -/
noncomputable def error_estandar (rows : List (ℚ × ℚ)) : Option ℝ := do
  let a ← interseccion rows
  let b ← pendiente rows
  if rows.length ≤ 2 then none
  else some (Real.sqrt ((sumResid rows a b : ℝ) / ((rows.length : ℝ) - 2)))

/-- The result record of `calcular_estadisticos` (the returned dict,
lines 37–43); a `none` field models a `NaN`/`Inf` float value. -/
structure Estadisticos where
  pendiente : Option ℚ
  interseccion : Option ℚ
  coef_correlacion : Option ℝ
  coef_determinacion : Option ℝ
  error_estandar : Option ℝ

/-- `calcular_estadisticos(data)` (lines 25–43): computes the five summary
statistics of the `(x, y)` rows and returns them as a record — there is no
error branch in the source; degenerate inputs flow through as `NaN`/`Inf`
(here `none`) fields. -/
noncomputable def calcular_estadisticos (rows : List (ℚ × ℚ)) : Estadisticos :=
  { pendiente := pendiente rows
    interseccion := interseccion rows
    coef_correlacion := coef_correlacion rows
    coef_determinacion := coef_determinacion rows
    error_estandar := error_estandar rows }

/-- The prediction `y = a + b * x` (line 60 `y_hypothetical = a + b *
x_hypothetical`, line 137 `stats["interseccion"] + stats["pendiente"] *
x_hypothetical`). -/
def predict (a b x : ℚ) : ℚ := a + b * x

/-! ## Plot builder -/

/-- The geometric content of the figure built by `crear_grafico_interactivo`:
the scatter trace of the raw points, the fitted-line trace (two endpoints),
and the optional gold hypothetical-point trace. -/
structure Figura where
  dispersionX : List ℚ
  dispersionY : List ℚ
  lineaX : List ℚ
  lineaY : List ℚ
  puntoHipotetico : Option (ℚ × ℚ)

/-- `crear_grafico_interactivo(data, a, b, x_hypothetical)` (lines 46–72):
extends the X range by half the spread on each side
(`X_range = X.max() - X.min()`;
`X_min, X_max = X.min() - X_range * 0.5, X.max() + X_range * 0.5`),
draws the line `Y_line = a + b * X_line` at those two endpoints, and, when
`x_hypothetical` is given, adds the single point
`(x_hypothetical, a + b * x_hypothetical)`. `none` models the `NaN`
coordinates `X.max()`/`X.min()` produce on an empty column. -/
def crear_grafico_interactivo (rows : List (ℚ × ℚ)) (a b : ℚ)
    (xh : Option ℚ) : Option Figura := do
  let xmn ← (colX rows).min?
  let xmx ← (colX rows).max?
  let xrange := xmx - xmn
  let lineaX := [xmn - xrange * (1 / 2), xmx + xrange * (1 / 2)]
  some
    { dispersionX := colX rows
      dispersionY := colY rows
      lineaX := lineaX
      lineaY := lineaX.map fun x => a + b * x
      puntoHipotetico := xh.map fun x => (x, a + b * x) }

/-! ## Hypothetical X composition (server) -/

/-- `x_hypothetical = input.signo() * (input.centenas() * 100 +
input.decenas() * 10 + input.unidades())` (lines 136, 147); the sliders give
`signo ∈ {-1, 1}` (min −1, max 1, step 2) and digits in `0..9`. -/
def x_hipotetico (signo centenas decenas unidades : ℤ) : ℤ :=
  signo * (centenas * 100 + decenas * 10 + unidades)

/-- `y_hypothetical = stats["interseccion"] + stats["pendiente"] *
x_hypothetical` (line 137). -/
def y_hipotetico (a b : ℚ) (x : ℤ) : ℚ := a + b * (x : ℚ)

/-! ## Alternative normalization (spec-side definitions)

The spec leaves the population-vs-sample normalization open; these
definitions spell out the population (`ddof = 0`) convention, to be compared
with the pandas (`ddof = 1`) convention the source uses. -/

/-- Population-normalized covariance `Σ (xᵢ−x̄)(yᵢ−ȳ) / n` (`ddof = 0`),
the alternative convention named by the spec's open question. -/
def covPob (rows : List (ℚ × ℚ)) : ℚ := sumCov rows / rows.length

/-- Population-normalized variance `Σ (xᵢ−x̄)² / n` (`ddof = 0`),
the alternative convention named by the spec's open question. -/
def varPob (l : List ℚ) : ℚ := sumVar l / l.length

/-! ## Concrete datasets and tables used as test inputs -/

/-- The spec's worked example: `X = [1,2,3,4,5]`, `Y = [2,4,6,8,10]`. -/
def ejemplo : List (ℚ × ℚ) := [(1, 2), (2, 4), (3, 6), (4, 8), (5, 10)]

/-- A degenerate dataset with constant `X` (`var(X) = 0`). -/
def datosXConstante : List (ℚ × ℚ) := [(1, 1), (1, 2), (1, 3)]

/-- A degenerate dataset with only `n = 2` rows. -/
def datosDosFilas : List (ℚ × ℚ) := [(1, 2), (2, 5)]

/-- A well-formed 3-column table: string headers, numeric columns 1 and 2,
no nulls. -/
def tablaBuena : Tabla :=
  ⟨[(.str "ID", [.txt "a", .txt "b", .txt "c"]),
    (.str "X", [.num 1, .num 2, .num 3]),
    (.str "Y", [.num 2, .num 4, .num 6])]⟩

/-- A table with only two columns. -/
def tablaDosColumnas : Tabla :=
  ⟨[(.str "X", [.num 1]), (.str "Y", [.num 2])]⟩

/-- A table that is well-formed except for a null cell in column 0. -/
def tablaConNulo : Tabla :=
  ⟨[(.str "ID", [.null]), (.str "X", [.num 1]), (.str "Y", [.num 2])]⟩

/-- A table whose first column header is the empty string and which is
otherwise well-formed. -/
def tablaEncabezadoVacio : Tabla :=
  ⟨[(.str "", [.txt "a"]), (.str "X", [.num 1]), (.str "Y", [.num 2])]⟩

/-- A table whose first column header is not a string (e.g. numeric). -/
def tablaEncabezadoNoStr : Tabla :=
  ⟨[(.nonstr, [.txt "a"]), (.str "X", [.num 1]), (.str "Y", [.num 2])]⟩

/-! ## Evaluation lemmas for the worked example -/

theorem mean_colX_ejemplo : mean (colX ejemplo) = 3 := by
  norm_num [mean, colX, ejemplo]

theorem mean_colY_ejemplo : mean (colY ejemplo) = 6 := by
  norm_num [mean, colY, ejemplo]

theorem covXY_ejemplo : covXY ejemplo = some 5 := by
  norm_num [covXY, sumCov, mean, colX, colY, ejemplo]

theorem varS_colX_ejemplo : varS (colX ejemplo) = some (5 / 2) := by
  norm_num [varS, sumVar, colX, mean, ejemplo]

theorem varS_colY_ejemplo : varS (colY ejemplo) = some 10 := by
  norm_num [varS, sumVar, colY, mean, ejemplo]

theorem pendiente_ejemplo : pendiente ejemplo = some 2 := by
  rw [pendiente, covXY_ejemplo, varS_colX_ejemplo]
  norm_num

theorem interseccion_ejemplo : interseccion ejemplo = some 0 := by
  rw [interseccion, pendiente_ejemplo]
  norm_num [mean_colX_ejemplo, mean_colY_ejemplo]

theorem coef_correlacion_ejemplo : coef_correlacion ejemplo = some 1 := by
  rw [coef_correlacion, covXY_ejemplo, varS_colX_ejemplo, varS_colY_ejemplo]
  have h : Real.sqrt 5 / Real.sqrt 2 * Real.sqrt 10 = 5 := by
    rw [div_mul_eq_mul_div, ← Real.sqrt_mul (by norm_num), ← Real.sqrt_div (by norm_num)]
    rw [show (5 * 10 : ℝ) / 2 = 5 ^ 2 by norm_num]
    exact Real.sqrt_sq (by norm_num)
  norm_num [Option.bind, h]

theorem error_estandar_ejemplo : error_estandar ejemplo = some 0 := by
  rw [error_estandar, interseccion_ejemplo, pendiente_ejemplo]
  norm_num [sumResid, ejemplo]

/-! ## Claim theorems -/

/-- C4: on the dataset `X = [1,2,3,4,5]`, `Y = [2,4,6,8,10]`,
`calcular_estadisticos` returns slope 2, intercept 0, correlation 1,
coefficient of determination 1 and standard error 0, and the prediction at
the hypothetical input `x = 6` is 12. -/
theorem estadisticos_ejemplo :
    (calcular_estadisticos ejemplo).pendiente = some 2 ∧
    (calcular_estadisticos ejemplo).interseccion = some 0 ∧
    (calcular_estadisticos ejemplo).coef_correlacion = some 1 ∧
    (calcular_estadisticos ejemplo).coef_determinacion = some 1 ∧
    (calcular_estadisticos ejemplo).error_estandar = some 0 ∧
    predict 0 2 6 = 12 := by
  refine ⟨pendiente_ejemplo, interseccion_ejemplo, coef_correlacion_ejemplo, ?_,
    error_estandar_ejemplo, by norm_num [predict]⟩
  show coef_determinacion ejemplo = some 1
  rw [coef_determinacion, coef_correlacion_ejemplo]
  norm_num

/-- C5: for every dataset, the `coef_determinacion` field returned by
`calcular_estadisticos` is exactly the square of the returned
`coef_correlacion` field. -/
theorem coef_determinacion_es_cuadrado (rows : List (ℚ × ℚ)) (r : ℝ)
    (h : (calcular_estadisticos rows).coef_correlacion = some r) :
    (calcular_estadisticos rows).coef_determinacion = some (r ^ 2) := by
  have h' : coef_correlacion rows = some r := h
  show coef_determinacion rows = some (r ^ 2)
  rw [coef_determinacion, h', Option.map_some']

/-- Witness for C5 at the worked example (`r = 1`). -/
theorem coef_determinacion_es_cuadrado_witness :
    (calcular_estadisticos ejemplo).coef_determinacion = some (1 ^ 2) :=
  coef_determinacion_es_cuadrado ejemplo 1 coef_correlacion_ejemplo

/-- C6: the fitted line passes through the centroid: whenever
`calcular_estadisticos` returns slope `b` and intercept `a`, the prediction
`a + b·mean(X)` equals `mean(Y)` exactly. -/
theorem recta_por_centroide (rows : List (ℚ × ℚ)) (a b : ℚ)
    (hb : (calcular_estadisticos rows).pendiente = some b)
    (ha : (calcular_estadisticos rows).interseccion = some a) :
    predict a b (mean (colX rows)) = mean (colY rows) := by
  have hb' : pendiente rows = some b := hb
  have ha' : interseccion rows = some a := ha
  rw [interseccion, hb'] at ha'
  simp only [Option.bind_eq_bind, Option.some_bind, Option.some.injEq] at ha'
  rw [predict, ← ha']
  ring

/-- Witness for C6 at the worked example (`a = 0`, `b = 2`). -/
theorem recta_por_centroide_witness :
    predict 0 2 (mean (colX ejemplo)) = mean (colY ejemplo) :=
  recta_por_centroide ejemplo 0 2 pendiente_ejemplo interseccion_ejemplo

/-! ## Degenerate-input evaluations -/

theorem covXY_XConstante : covXY datosXConstante = some 0 := by
  norm_num [covXY, sumCov, mean, colX, colY, datosXConstante]

theorem varS_XConstante : varS (colX datosXConstante) = some 0 := by
  norm_num [varS, sumVar, colX, mean, datosXConstante]

theorem pendiente_XConstante : pendiente datosXConstante = none := by
  rw [pendiente, covXY_XConstante, varS_XConstante]
  simp

theorem interseccion_XConstante : interseccion datosXConstante = none := by
  rw [interseccion, pendiente_XConstante]
  rfl

theorem pendiente_DosFilas : pendiente datosDosFilas = some 3 := by
  have hc : covXY datosDosFilas = some (3 / 2) := by
    norm_num [covXY, sumCov, mean, colX, colY, datosDosFilas]
  have hv : varS (colX datosDosFilas) = some (1 / 2) := by
    norm_num [varS, sumVar, colX, mean, datosDosFilas]
  rw [pendiente, hc, hv]
  norm_num

/-- C1: `calcular_estadisticos` has no error branch: on a constant-`X`
dataset it silently returns the record with every field `NaN` (here `none`),
and on an `n = 2` dataset it returns a well-defined slope together with an
`Inf`/`NaN` standard error — in neither case is an explicit error signalled,
contradicting the spec's requirement. -/
theorem degenerados_sin_error_explicito :
    (calcular_estadisticos datosXConstante).pendiente = none ∧
    (calcular_estadisticos datosXConstante).interseccion = none ∧
    (calcular_estadisticos datosXConstante).coef_correlacion = none ∧
    (calcular_estadisticos datosXConstante).coef_determinacion = none ∧
    (calcular_estadisticos datosXConstante).error_estandar = none ∧
    (calcular_estadisticos datosDosFilas).pendiente = some 3 ∧
    (calcular_estadisticos datosDosFilas).error_estandar = none := by
  refine ⟨pendiente_XConstante, interseccion_XConstante, ?_, ?_, ?_,
    pendiente_DosFilas, ?_⟩
  · show coef_correlacion datosXConstante = none
    rw [coef_correlacion, covXY_XConstante, varS_XConstante]
    simp
  · show coef_determinacion datosXConstante = none
    rw [coef_determinacion, coef_correlacion]
    rw [covXY_XConstante, varS_XConstante]
    simp
  · show error_estandar datosXConstante = none
    rw [error_estandar, interseccion_XConstante]
    rfl
  · show error_estandar datosDosFilas = none
    rw [error_estandar, interseccion, pendiente_DosFilas]
    simp [datosDosFilas]

/-! ## Loader theorems -/

/-- C2 counterexample: a parsed 3-column table whose first column header is
the empty string — not a non-empty string — is accepted by
`cargar_y_validar_datos` instead of being rejected with
"Cada columna debe tener un encabezado.": the source only checks
`isinstance(col, str)`, not non-emptiness. -/
theorem encabezado_vacio_aceptado :
    tablaEncabezadoVacio.cols.map Prod.fst = [.str "", .str "X", .str "Y"] ∧
    cargar_y_validar_datos (some tablaEncabezadoVacio) = .ok tablaEncabezadoVacio :=
  ⟨rfl, rfl⟩

/-- C2 amended: for a parsed 3-column table, the loader rejects with
"Cada columna debe tener un encabezado." exactly when some column header is
a non-string value; a header that is a string — even the empty string —
passes the check. -/
theorem error_encabezado_sii_no_string (c0 c1 c2 : HeaderCell × List Cell) :
    cargar_y_validar_datos (some ⟨[c0, c1, c2]⟩) =
      .error "Cada columna debe tener un encabezado." ↔
    (c0.1 = .nonstr ∨ c1.1 = .nonstr ∨ c2.1 = .nonstr) := by
  rcases c0 with ⟨h0, d0⟩
  rcases c1 with ⟨h1, d1⟩
  rcases c2 with ⟨h2, d2⟩
  cases h0 <;> cases h1 <;> cases h2 <;>
    simp only [cargar_y_validar_datos, HeaderCell.esStr, Bool.and_self, Bool.and_true,
      Bool.and_false, Bool.true_and, Bool.false_and, Bool.not_true, Bool.not_false,
      Bool.false_eq_true, if_true, if_false, reduceCtorEq] <;>
    (try split_ifs) <;> simp_all

/-- Witness for C2 amended, at a table with a non-string first header. -/
theorem error_encabezado_sii_no_string_witness :
    cargar_y_validar_datos (some tablaEncabezadoNoStr) =
      .error "Cada columna debe tener un encabezado." :=
  (error_encabezado_sii_no_string (.nonstr, [.txt "a"]) (.str "X", [.num 1])
    (.str "Y", [.num 2])).mpr (Or.inl rfl)

/-- C3: the loader runs its checks in source order and short-circuits on the
first failure: a parse failure gives the parse error; any column count other
than 3 gives the column-count error regardless of every later check; with 3
columns, a non-string header gives the header error; after that, a
non-numeric column 1 or 2 gives the numeric error; after that, any null cell
gives the null error; and when every check passes the table is returned
validated unchanged. -/
theorem cargar_orden_y_corto_circuito :
    (cargar_y_validar_datos none =
      .error "No se pudo cargar el archivo. Verifica que sea un archivo .xlsx válido.") ∧
    (∀ t : Tabla, t.cols.length ≠ 3 →
      cargar_y_validar_datos (some t) =
        .error "El archivo debe contener exactamente tres columnas.") ∧
    (∀ c0 c1 c2 : HeaderCell × List Cell,
      ¬(c0.1.esStr ∧ c1.1.esStr ∧ c2.1.esStr) →
      cargar_y_validar_datos (some ⟨[c0, c1, c2]⟩) =
        .error "Cada columna debe tener un encabezado.") ∧
    (∀ c0 c1 c2 : HeaderCell × List Cell,
      c0.1.esStr → c1.1.esStr → c2.1.esStr →
      ¬(columnaNumerica c1.2 ∧ columnaNumerica c2.2) →
      cargar_y_validar_datos (some ⟨[c0, c1, c2]⟩) =
        .error "Las columnas de la variable independiente y dependiente deben ser numéricas.") ∧
    (∀ c0 c1 c2 : HeaderCell × List Cell,
      c0.1.esStr → c1.1.esStr → c2.1.esStr →
      columnaNumerica c1.2 → columnaNumerica c2.2 →
      tieneNulos ⟨[c0, c1, c2]⟩ →
      cargar_y_validar_datos (some ⟨[c0, c1, c2]⟩) =
        .error "Las columnas no deben contener valores nulos.") ∧
    (∀ c0 c1 c2 : HeaderCell × List Cell,
      c0.1.esStr → c1.1.esStr → c2.1.esStr →
      columnaNumerica c1.2 → columnaNumerica c2.2 →
      ¬tieneNulos ⟨[c0, c1, c2]⟩ →
      cargar_y_validar_datos (some ⟨[c0, c1, c2]⟩) = .ok ⟨[c0, c1, c2]⟩) := by
  refine ⟨rfl, ?_, ?_, ?_, ?_, ?_⟩
  · intro t h
    rcases t with ⟨cols⟩
    rcases cols with _ | ⟨a, _ | ⟨b, _ | ⟨c, _ | ⟨d, rest⟩⟩⟩⟩
    · rfl
    · rfl
    · rfl
    · simp at h
    · rfl
  · intro c0 c1 c2 h
    have hb : (c0.1.esStr && c1.1.esStr && c2.1.esStr) = false := by
      cases e0 : c0.1.esStr <;> cases e1 : c1.1.esStr <;> cases e2 : c2.1.esStr <;> simp_all
    simp [cargar_y_validar_datos, hb]
  · intro c0 c1 c2 h0 h1 h2 hn
    have hb : (!columnaNumerica c1.2 || !columnaNumerica c2.2) = true := by
      cases e1 : columnaNumerica c1.2 <;> cases e2 : columnaNumerica c2.2 <;> simp_all
    simp [cargar_y_validar_datos, h0, h1, h2, hb]
  · intro c0 c1 c2 h0 h1 h2 hn1 hn2 hnul
    simp [cargar_y_validar_datos, h0, h1, h2, hn1, hn2, hnul]
  · intro c0 c1 c2 h0 h1 h2 hn1 hn2 hnul
    simp only [Bool.not_eq_true] at hnul
    simp [cargar_y_validar_datos, h0, h1, h2, hn1, hn2, hnul]

/-- Witness for C3: the loader rejects a 2-column table with the
column-count error, rejects an otherwise well-formed table holding a null
with the null error, and accepts a well-formed table. -/
theorem cargar_orden_y_corto_circuito_witness :
    cargar_y_validar_datos (some tablaDosColumnas) =
      .error "El archivo debe contener exactamente tres columnas." ∧
    cargar_y_validar_datos (some tablaConNulo) =
      .error "Las columnas no deben contener valores nulos." ∧
    cargar_y_validar_datos (some tablaBuena) = .ok tablaBuena :=
  ⟨cargar_orden_y_corto_circuito.2.1 tablaDosColumnas (by decide),
   cargar_orden_y_corto_circuito.2.2.2.2.1 (.str "ID", [.null]) (.str "X", [.num 1])
     (.str "Y", [.num 2]) rfl rfl rfl rfl rfl rfl,
   cargar_orden_y_corto_circuito.2.2.2.2.2 (.str "ID", [.txt "a", .txt "b", .txt "c"])
     (.str "X", [.num 1, .num 2, .num 3]) (.str "Y", [.num 2, .num 4, .num 6])
     rfl rfl rfl rfl rfl (by decide)⟩

/-! ## Variance positivity -/

theorem sumVar_nonneg (l : List ℚ) : 0 ≤ sumVar l := by
  apply List.sum_nonneg
  intro x hx
  rcases List.mem_map.mp hx with ⟨y, _, rfl⟩
  positivity

theorem sumVar_pos_of_ne (x y : ℚ) (t : List ℚ) (hxy : x ≠ y) :
    0 < sumVar (x :: y :: t) := by
  set m := mean (x :: y :: t) with hm
  have ht : 0 ≤ (t.map fun z => (z - m) ^ 2).sum := by
    apply List.sum_nonneg
    intro a ha
    rcases List.mem_map.mp ha with ⟨z, _, rfl⟩
    positivity
  have h2 : 0 < (x - m) ^ 2 + (y - m) ^ 2 := by
    rcases eq_or_ne x m with hx | hx
    · have hy : y - m ≠ 0 := fun h => hxy (by rw [hx, ← sub_eq_zero.mp h])
      have hy2 : (y - m) ^ 2 ≠ 0 := pow_ne_zero 2 hy
      have := sq_nonneg (x - m)
      have := sq_nonneg (y - m)
      rcases (sq_nonneg (y - m)).lt_or_eq with h | h
      · linarith
      · exact absurd h.symm hy2
    · have hx2 : (x - m) ^ 2 ≠ 0 := pow_ne_zero 2 (sub_ne_zero.mpr hx)
      rcases (sq_nonneg (x - m)).lt_or_eq with h | h
      · have := sq_nonneg (y - m)
        linarith
      · exact absurd h.symm hx2
  rw [sumVar]
  simp only [List.map_cons, List.sum_cons, ← hm]
  linarith

/-- C7: `calcular_estadisticos` is a pure function: two runs on equal
datasets give identical result records; moreover, on a dataset with
pairwise-distinct X values and `n ≥ 3`, the slope, intercept and standard
error it returns are well-defined values (not `NaN`/`Inf`). -/
theorem calcular_determinista (rows rows2 : List (ℚ × ℚ))
    (hn : 3 ≤ rows.length) (hd : (colX rows).Pairwise (· ≠ ·))
    (heq : rows2 = rows) :
    calcular_estadisticos rows2 = calcular_estadisticos rows ∧
    (calcular_estadisticos rows).pendiente.isSome = true ∧
    (calcular_estadisticos rows).interseccion.isSome = true ∧
    (calcular_estadisticos rows).error_estandar.isSome = true := by
  refine ⟨by rw [heq], ?_⟩
  rcases rows with _ | ⟨p, rows'⟩
  · simp at hn
  rcases rows' with _ | ⟨q, rest⟩
  · simp at hn
  have hlen : (p :: q :: rest).length = rest.length + 2 := by simp
  have hne : p.1 ≠ q.1 := by
    rw [colX] at hd
    simp only [List.map_cons] at hd
    exact (List.pairwise_cons.mp hd).1 q.1 (List.mem_cons_self _ _)
  have hpos : 0 < sumVar (colX (p :: q :: rest)) := by
    rw [colX]
    simp only [List.map_cons]
    exact sumVar_pos_of_ne _ _ _ hne
  have hlenX : (colX (p :: q :: rest)).length = rest.length + 2 := by simp [colX]
  have hden : ((rest.length + 2 : ℕ) : ℚ) - 1 ≠ 0 := by
    push_cast
    intro h
    have h0 : (0 : ℚ) ≤ (rest.length : ℚ) := by positivity
    linarith
  have hvar : varS (colX (p :: q :: rest)) =
      some (sumVar (colX (p :: q :: rest)) / (((rest.length + 2 : ℕ) : ℚ) - 1)) := by
    rw [varS, hlenX]
    simp
  have hv0 : sumVar (colX (p :: q :: rest)) / (((rest.length + 2 : ℕ) : ℚ) - 1) ≠ 0 :=
    div_ne_zero (ne_of_gt hpos) hden
  have hcov : covXY (p :: q :: rest) =
      some (sumCov (p :: q :: rest) / (((rest.length + 2 : ℕ) : ℚ) - 1)) := by
    rw [covXY, hlen]
    simp
  have hpend : pendiente (p :: q :: rest) =
      some (sumCov (p :: q :: rest) / (((rest.length + 2 : ℕ) : ℚ) - 1) /
        (sumVar (colX (p :: q :: rest)) / (((rest.length + 2 : ℕ) : ℚ) - 1))) := by
    rw [pendiente, hcov, hvar]
    simp only [Option.bind_eq_bind, Option.some_bind]
    rw [if_neg hv0]
  have hint : ∃ a, interseccion (p :: q :: rest) = some a := by
    rw [interseccion, hpend]
    exact ⟨_, rfl⟩
  obtain ⟨a, hint⟩ := hint
  refine ⟨by rw [show (calcular_estadisticos (p :: q :: rest)).pendiente =
    pendiente (p :: q :: rest) from rfl, hpend]; rfl,
    by rw [show (calcular_estadisticos (p :: q :: rest)).interseccion =
      interseccion (p :: q :: rest) from rfl, hint]; rfl, ?_⟩
  show (error_estandar (p :: q :: rest)).isSome = true
  rw [error_estandar, hint, hpend]
  have hgt : ¬(p :: q :: rest).length ≤ 2 := by
    simp only [List.length_cons] at hn ⊢
    omega
  simp [hgt]
  intro h
  subst h
  simp at hn

/-- Witness for C7 at the worked example. -/
theorem calcular_determinista_witness :
    calcular_estadisticos ejemplo = calcular_estadisticos ejemplo ∧
    (calcular_estadisticos ejemplo).pendiente.isSome = true ∧
    (calcular_estadisticos ejemplo).interseccion.isSome = true ∧
    (calcular_estadisticos ejemplo).error_estandar.isSome = true :=
  calcular_determinista ejemplo ejemplo (by norm_num [ejemplo])
    (by norm_num [ejemplo, colX, List.pairwise_cons]) rfl

/-! ## Plot-builder theorem -/

/-- C8: the fitted line is drawn as the segment whose endpoints have X
coordinates `min(X) − 0.5·(max(X) − min(X))` and
`max(X) + 0.5·(max(X) − min(X))`, with Y coordinates `a + b·X` at those two
endpoints, and a supplied hypothetical X contributes exactly the one
highlighted point `(x, a + b·x)`. -/
theorem grafico_linea_extendida (rows : List (ℚ × ℚ)) (a b : ℚ) (xh : Option ℚ)
    (xmn xmx : ℚ) (hmn : (colX rows).min? = some xmn)
    (hmx : (colX rows).max? = some xmx) :
    crear_grafico_interactivo rows a b xh = some
      { dispersionX := colX rows
        dispersionY := colY rows
        lineaX := [xmn - (1 / 2) * (xmx - xmn), xmx + (1 / 2) * (xmx - xmn)]
        lineaY := [predict a b (xmn - (1 / 2) * (xmx - xmn)),
                   predict a b (xmx + (1 / 2) * (xmx - xmn))]
        puntoHipotetico := xh.map fun x => (x, predict a b x) } := by
  have e1 : xmn - (xmx - xmn) * (1 / 2) = xmn - (1 / 2) * (xmx - xmn) := by ring
  have e2 : xmx + (xmx - xmn) * (1 / 2) = xmx + (1 / 2) * (xmx - xmn) := by ring
  rw [crear_grafico_interactivo, hmn, hmx]
  simp only [Option.bind_eq_bind, Option.some_bind, List.map_cons, List.map_nil,
    e1, e2, predict]

/-- Witness for C8 at the worked example with hypothetical `x = 6`:
`min(X) = 1`, `max(X) = 5`, so the line runs from `x = -1` to `x = 7`. -/
theorem grafico_linea_extendida_witness :
    crear_grafico_interactivo ejemplo 0 2 (some 6) = some
      { dispersionX := colX ejemplo
        dispersionY := colY ejemplo
        lineaX := [1 - (1 / 2) * (5 - 1), 5 + (1 / 2) * (5 - 1)]
        lineaY := [predict 0 2 (1 - (1 / 2) * (5 - 1)), predict 0 2 (5 + (1 / 2) * (5 - 1))]
        puntoHipotetico := (some 6).map fun x => (x, predict 0 2 x) } :=
  grafico_linea_extendida ejemplo 0 2 (some 6) 1 5
    (by norm_num [ejemplo, colX, List.min?, min_def])
    (by norm_num [ejemplo, colX, List.max?, max_def])

/-! ## Hypothetical-point theorem -/

/-- C9: for a sign in `{-1, +1}` and digit slider values in `0..9`, the
composed hypothetical X lies in `[-999, 999]`, and its paired prediction is
exactly `a + b·x`. -/
theorem x_hipotetico_rango (signo c d u : ℤ) (a b : ℚ)
    (hs : signo = -1 ∨ signo = 1)
    (hc0 : 0 ≤ c) (hc9 : c ≤ 9) (hd0 : 0 ≤ d) (hd9 : d ≤ 9)
    (hu0 : 0 ≤ u) (hu9 : u ≤ 9) :
    -999 ≤ x_hipotetico signo c d u ∧ x_hipotetico signo c d u ≤ 999 ∧
    y_hipotetico a b (x_hipotetico signo c d u) =
      predict a b ((x_hipotetico signo c d u : ℤ) : ℚ) := by
  rcases hs with rfl | rfl <;>
    exact ⟨by rw [x_hipotetico]; omega, by rw [x_hipotetico]; omega, rfl⟩

/-- Witness for C9 at the extreme slider position `(+1, 9, 9, 9)`. -/
theorem x_hipotetico_rango_witness :
    -999 ≤ x_hipotetico 1 9 9 9 ∧ x_hipotetico 1 9 9 9 ≤ 999 ∧
    y_hipotetico 0 2 (x_hipotetico 1 9 9 9) =
      predict 0 2 ((x_hipotetico 1 9 9 9 : ℤ) : ℚ) :=
  x_hipotetico_rango 1 9 9 9 0 2 (Or.inr rfl) (by decide) (by decide)
    (by decide) (by decide) (by decide) (by decide)

/-! ## Normalization consistency -/

/-- C10: the engine uses the sample (`ddof = 1`) convention consistently:
the slope it returns equals the population-normalized ratio
`covPob / varPob` (the `ddof` factors cancel), and the correlation it
returns equals the normalization-free Pearson form
`Σ(x−x̄)(y−ȳ) / √(Σ(x−x̄)² · Σ(y−ȳ)²)`. -/
theorem normalizacion_consistente (rows : List (ℚ × ℚ))
    (h2 : 2 ≤ rows.length)
    (hvx : sumVar (colX rows) ≠ 0) (hvy : sumVar (colY rows) ≠ 0) :
    pendiente rows = some (covPob rows / varPob (colX rows)) ∧
    coef_correlacion rows = some ((sumCov rows : ℝ) /
      Real.sqrt ((sumVar (colX rows) : ℝ) * (sumVar (colY rows) : ℝ))) := by
  have hlenX : (colX rows).length = rows.length := by simp [colX]
  have hlenY : (colY rows).length = rows.length := by simp [colY]
  have hn0 : (rows.length : ℚ) ≠ 0 := by
    intro h
    rw [Nat.cast_eq_zero] at h
    omega
  have hn1 : (rows.length : ℚ) - 1 ≠ 0 := by
    intro h
    have : ((rows.length : ℚ)) = 1 := by linarith
    rw [show (1 : ℚ) = ((1 : ℕ) : ℚ) from by norm_num, Nat.cast_inj] at this
    omega
  have hnlt : ¬rows.length < 2 := by omega
  have hcov : covXY rows = some (sumCov rows / ((rows.length : ℚ) - 1)) := by
    rw [covXY, if_neg hnlt]
  have hvarx : varS (colX rows) = some (sumVar (colX rows) / ((rows.length : ℚ) - 1)) := by
    rw [varS, hlenX, if_neg hnlt]
  have hvary : varS (colY rows) = some (sumVar (colY rows) / ((rows.length : ℚ) - 1)) := by
    rw [varS, hlenY, if_neg hnlt]
  have hvx' : sumVar (colX rows) / ((rows.length : ℚ) - 1) ≠ 0 := div_ne_zero hvx hn1
  have hvy' : sumVar (colY rows) / ((rows.length : ℚ) - 1) ≠ 0 := div_ne_zero hvy hn1
  constructor
  · rw [pendiente, hcov, hvarx]
    simp only [Option.bind_eq_bind, Option.some_bind]
    rw [if_neg hvx', Option.some.injEq, covPob, varPob, hlenX]
    field_simp
  · rw [coef_correlacion, hcov, hvarx, hvary]
    simp only [Option.bind_eq_bind, Option.some_bind]
    rw [if_neg (by push_neg; exact ⟨hvx', hvy'⟩), Option.some.injEq]
    have hxpos : (0 : ℝ) < (sumVar (colX rows) : ℝ) := by
      have h1 : (0 : ℝ) ≤ (sumVar (colX rows) : ℝ) := by
        exact_mod_cast sumVar_nonneg (colX rows)
      have h2 : ((sumVar (colX rows) : ℚ) : ℝ) ≠ 0 := by exact_mod_cast hvx
      exact lt_of_le_of_ne h1 (Ne.symm h2)
    have hypos : (0 : ℝ) < (sumVar (colY rows) : ℝ) := by
      have h1 : (0 : ℝ) ≤ (sumVar (colY rows) : ℝ) := by
        exact_mod_cast sumVar_nonneg (colY rows)
      have h2 : ((sumVar (colY rows) : ℚ) : ℝ) ≠ 0 := by exact_mod_cast hvy
      exact lt_of_le_of_ne h1 (Ne.symm h2)
    have hd : (0 : ℝ) < (rows.length : ℝ) - 1 := by
      have : (2 : ℝ) ≤ (rows.length : ℝ) := by exact_mod_cast h2
      linarith
    push_cast
    rw [Real.sqrt_div hxpos.le, Real.sqrt_div hypos.le, Real.sqrt_mul hxpos.le]
    rw [div_mul_div_comm, Real.mul_self_sqrt hd.le]
    rw [div_div_div_cancel_right₀]
    exact ne_of_gt hd

/-- Witness for C10 at the worked example. -/
theorem normalizacion_consistente_witness :
    pendiente ejemplo = some (covPob ejemplo / varPob (colX ejemplo)) ∧
    coef_correlacion ejemplo = some ((sumCov ejemplo : ℝ) /
      Real.sqrt ((sumVar (colX ejemplo) : ℝ) * (sumVar (colY ejemplo) : ℝ))) :=
  normalizacion_consistente ejemplo (by norm_num [ejemplo])
    (by norm_num [sumVar, colX, mean, ejemplo])
    (by norm_num [sumVar, colY, mean, ejemplo])

end RLS
